import Mathlib

/-!
# Verification of numpy's PEP 3118 buffer export (`buffer.c`)

Shallow embedding of `src/numpy/core/src/multiarray/buffer.c`:

* `_buffer_format_string` translates an element-type descriptor into the
  PEP 3118 format string (the FormatEncoder of the spec);
* `array_getbuffer` validates a view request, lazily computes/caches the
  format string on the descriptor and the shape/stride snapshot on the
  array (BufferExporter + ViewCache);
* `_array_dealloc_buffer_info` frees the cached snapshot at array
  destruction.

Modelling conventions:

* C strings are `List Char`; the trailing NUL terminator appended by the
  source before caching is not modelled (strings carry their length).
* Machine integers (`int`, `Py_ssize_t`) are `Int`/`Nat`; no arithmetic
  here approaches overflow.
* The Python error indicator (`PyErr_SetString`) is an `Option Err` field
  threaded through the encoder state: the source sometimes sets an error
  and yet returns success (its caller only checks the return code), and
  the embedding reproduces exactly that.
* Heap identity of the shape/stride snapshot allocation is modelled by a
  counter: each `malloc` of a snapshot receives a fresh id, and `free`
  records the id in a `freed` list.  Pointer equality of the source
  becomes id equality.
* The one unchecked `malloc` of the snapshot (source line 347) is driven
  by an `allocOk` oracle; when it fails the source writes through the
  NULL result, which the embedding reports as the `crash` outcome.
-/

namespace NpyBuffer

/-- Error outcomes surfaced through the Python error indicator.  The three
source messages about C/Fortran/any contiguity all map to `notContiguous`.
`notWritable`, `invalidWidth` and `allocationFailure` are listed by the
specification but never produced by the source (it has no writability
check, the wide-string width condition is only an `assert`, and the
snapshot `malloc` is unchecked); they are included so that statements
about them can be made. -/
inductive Err where
  | unsupportedLayout
  | invalidFieldName
  | invalidWidth
  | unknownElementType
  | notContiguous
  | notWritable
  | notSingleSegment
  | allocationFailure
deriving DecidableEq, Repr

/-- The numpy type numbers distinguished by the `switch` in
`_buffer_format_string`; `other` stands for every type number that falls
into the `default:` branch. -/
inductive TypeNum where
  | byte | ubyte | short | ushort | int | uint | long | ulong
  | longlong | ulonglong | float | double | longdouble
  | cfloat | cdouble | clongdouble | string | unicode | object
  | other
deriving DecidableEq, Repr

/-- `PyArray_Descr`, restricted to the fields `_buffer_format_string`
reads: byte order character, element size, type number, whether
`descr->subarray` is non-NULL, and the named, offset-tagged children of a
record type (`descr->names` / `descr->fields`, in `names` order).  A
descriptor with an empty `fields` list models `PyDataType_HASFIELDS`
being false. -/
inductive Descr where
  | mk (byteorder : Char) (elsize : Nat) (type_num : TypeNum)
       (subarray : Bool) (fields : List (String × Int × Descr))

def Descr.byteorder : Descr → Char
  | .mk bo _ _ _ _ => bo

def Descr.elsize : Descr → Nat
  | .mk _ e _ _ _ => e

def Descr.type_num : Descr → TypeNum
  | .mk _ _ t _ _ => t

def Descr.subarray : Descr → Bool
  | .mk _ _ _ sa _ => sa

def Descr.fields : Descr → List (String × Int × Descr)
  | .mk _ _ _ _ fs => fs

/-- The `_tmp_string` buffer together with the running byte offset and the
Python error indicator.  `_append_char`/`_append_str` growth is modelled as
always succeeding (allocation failure of the temporary string is outside
the claims about the encoder itself). -/
structure FmtState where
  s : List Char
  offset : Int
  err : Option Err
deriving DecidableEq, Repr

def appendChar (st : FmtState) (c : Char) : FmtState :=
  { st with s := st.s ++ [c] }

def appendStr (st : FmtState) (t : String) : FmtState :=
  { st with s := st.s ++ t.toList }

def setErr (st : FmtState) (e : Err) : FmtState :=
  { st with err := some e }

/-- The padding loop `while (*offset < new_offset) append 'x'`. -/
def appendPad (st : FmtState) (newOffset : Int) : FmtState :=
  let n := (newOffset - st.offset).toNat
  { st with s := st.s ++ List.replicate n 'x', offset := st.offset + n }

/-- The field-name copy loop: appends the name character by character,
failing when the reserved separator occurs in the name. -/
def appendName : List Char → FmtState → Bool × FmtState
  | [], st => (true, st)
  | c :: cs, st =>
    if c = ':' then (false, setErr st .invalidFieldName)
    else appendName cs (appendChar st c)

mutual

/-- `_buffer_format_string` (source lines 136-252).  Returns the C return
code (0 success, -1 failure) and the updated string/offset/error state.
The `NPY_UNICODE` case carries only `assert(descr->elsize % 4 == 0)`
(source line 238): an abort when assertions are enabled, compiled out
under NDEBUG — the shipped build, which is what is modelled — so the
repeat count `elsize / 4` truncates and no error is ever returned. -/
def _buffer_format_string : Descr → FmtState → Int × FmtState
  | .mk bo elsize tn subarr fields, st =>
    if subarr then
      (-1, setErr st .unsupportedLayout)
    else if !fields.isEmpty then
      let st := appendStr st "T\x7b"
      match _format_fields fields st with
      | (r, st) => if r = 0 then (0, appendChar st '\x7d') else (r, st)
    else
      let st := if bo = '<' ∨ bo = '>' ∨ bo = '=' then appendChar st bo else st
      match tn with
      | .byte => (0, appendChar st 'b')
      | .ubyte => (0, appendChar st 'B')
      | .short => (0, appendChar st 'h')
      | .ushort => (0, appendChar st 'H')
      | .int => (0, appendChar st 'i')
      | .uint => (0, appendChar st 'I')
      | .long => (0, appendChar st 'l')
      | .ulong => (0, appendChar st 'L')
      | .longlong => (0, appendChar st 'q')
      | .ulonglong => (0, appendChar st 'Q')
      | .float => (0, appendChar st 'f')
      | .double => (0, appendChar st 'd')
      | .longdouble => (0, appendChar st 'g')
      | .cfloat => (0, appendStr st "Zf")
      | .cdouble => (0, appendStr st "Zd")
      | .clongdouble => (0, appendStr st "Zg")
      | .string => (0, appendStr st (toString elsize ++ "s"))
      | .unicode =>
        (0, appendStr st (toString (elsize / 4) ++ "w"))
      | .object => (0, appendChar st 'O')
      | .other => (-1, setErr st .unknownElementType)

/-- The `for (k = 0; ...)` loop over a record's fields (source lines
151-203).  Faithfully to source line 173, the return code of the
recursive `_buffer_format_string` call on the child is DISCARDED: a
failing child sets the error indicator but the loop continues and the
enclosing call still returns 0. -/
def _format_fields : List (String × Int × Descr) → FmtState → Int × FmtState
  | [], st => (0, st)
  | (name, off, child) :: rest, st =>
    let st := appendPad st off
    let st := { st with offset := st.offset + (child.elsize : Int) }
    let (_, st) := _buffer_format_string child st
    let st := appendChar st ':'
    match appendName name.toList st with
    | (false, st) => (-1, st)
    | (true, st) => _format_fields rest (appendChar st ':')

end

/-! ## The exporter: `array_getbuffer` -/

/-- A shape/stride snapshot: the single `malloc`ed block holding
`cache->shape` and `cache->strides` (source lines 347-353).  `id` models
the heap identity of the allocation. -/
structure Snapshot where
  id : Nat
  shape : List Int
  strides : List Int
deriving DecidableEq, Repr

/-- `_buffer_data` (source lines 97-102).  `format` is written only at
initialization and never read again in the source (dead field); the
`shape`/`strides` pointer pair is the `snap` field. -/
structure BufferData where
  format : Option (List Char)
  nd : Nat
  snap : Option Snapshot
deriving DecidableEq, Repr

/-- The fields of `PyArrayObject` that `array_getbuffer` consults, with
the collaborator predicates (`PyArray_CHKFLAGS`, `PyArray_ISONESEGMENT`)
exposed as the booleans the spec's collaborator contract lists.  `dims`
and `strides` have length `ndim` for any array produced by the host. -/
structure ArrayObj where
  ndim : Nat
  dims : List Int
  strides : List Int
  c_contiguous : Bool
  f_contiguous : Bool
  writeable : Bool
  one_segment : Bool
  nbytes : Nat
  itemsize : Nat
  descr : Descr

/-- The `PyBUF_*` request masks of CPython's `Python.h`, the external
interface `buffer.c` is written against.  `PyBUF_STRIDED` notably
includes the `PyBUF_WRITABLE` bit, so the strided test at source line 325
also depends on the write demand. -/
def PyBUF_WRITABLE : Nat := 0x0001

def PyBUF_FORMAT : Nat := 0x0004

def PyBUF_ND : Nat := 0x0008

def PyBUF_STRIDES : Nat := 0x0010 ||| PyBUF_ND

def PyBUF_C_CONTIGUOUS : Nat := 0x0020 ||| PyBUF_STRIDES

def PyBUF_F_CONTIGUOUS : Nat := 0x0040 ||| PyBUF_STRIDES

def PyBUF_ANY_CONTIGUOUS : Nat := 0x0080 ||| PyBUF_STRIDES

def PyBUF_STRIDED : Nat := PyBUF_STRIDES ||| PyBUF_WRITABLE

/-- The mask test `(flags & mask) == mask` performed by every flag check
of `array_getbuffer` (source lines 285, 290, 295, 308, 325). -/
def hasBits (flags mask : Nat) : Bool := flags &&& mask == mask

/-- Mutable state outside the array's layout: the array's
`self->buffer_info` slot, the descriptor's `buffer_format` cache slot, the
allocation counter giving snapshots their identity, the ids of snapshot
allocations freed so far, and a count of format-string computations
performed (for stating that the cache avoids recomputation). -/
structure ExportState where
  buffer_info : Option BufferData
  descrFormat : Option (List Char)
  nextId : Nat
  freed : List Nat
  fmtComputes : Nat
deriving DecidableEq, Repr

/-- The fields of `Py_buffer` populated by `array_getbuffer`.  The raw
pointers `buf`, `obj`, `suboffsets`, `internal` are not modelled; the
view's `shape`/`strides` pointers are modelled by the id of the snapshot
they point into (`snapId`) together with the pointed-to data. -/
structure ViewRec where
  len : Nat
  itemsize : Nat
  readonly : Bool
  format : Option (List Char)
  ndim : Nat
  snapId : Option Nat
  shape : Option (List Int)
  strides : Option (List Int)
deriving DecidableEq, Repr

/-- Outcome of a `getbuffer` call: success with a populated view, failure
with the error left in the Python error indicator, or `crash` — the
undefined behavior of writing through the unchecked NULL `malloc` result
on the snapshot-growth path. -/
inductive Outcome where
  | ok (v : ViewRec)
  | err (e : Err)
  | crash
deriving DecidableEq, Repr

/-- The `PyBUF_FORMAT` block of `array_getbuffer` (source lines 308-323):
on a cache miss the format string is computed and, when the return code is
0, stored on the descriptor; on a hit the cached value is returned
untouched.  Returns the view's `format` field or the error. -/
def formatStep (d : Descr) (want : Bool) (st : ExportState) :
    Except Err (Option (List Char)) × ExportState :=
  if want then
    match st.descrFormat with
    | some f => (.ok (some f), st)
    | none =>
      if (_buffer_format_string d { s := [], offset := 0, err := none }).1 = 0 then
        (.ok (some (_buffer_format_string d { s := [], offset := 0, err := none }).2.s),
         { st with
             fmtComputes := st.fmtComputes + 1,
             descrFormat :=
               some (_buffer_format_string d
                 { s := [], offset := 0, err := none }).2.s })
      else
        (.error ((_buffer_format_string d
             { s := [], offset := 0, err := none }).2.err.getD
           .unknownElementType),
         { st with fmtComputes := st.fmtComputes + 1 })
  else
    (.ok none, st)

/-- The shape-change test of source lines 329-340: dimension count, then
extent/stride comparison for each `k < ndim` (reading through the cached
pointers, modelled by `getD`). -/
def shapeChanged (a : ArrayObj) (c : BufferData) : Bool :=
  if c.nd ≠ a.ndim then true
  else
    match c.snap with
    | none => false
    | some s =>
      (List.range a.ndim).any fun k =>
        s.shape.getD k 0 != a.dims.getD k 0
          || s.strides.getD k 0 != a.strides.getD k 0

/-- The snapshot refresh of source lines 342-354.  When the cache is empty
or stale the source FIRST frees the old snapshot, THEN `malloc`s the new
one WITHOUT checking the result; `allocOk` drives that `malloc`.  On
allocation failure `cache->nd` has already been updated and the copy loop
writes through NULL — a crash whenever `ndim > 0`.  Returns
(crashed?, new cache, next allocation id, freed ids). -/
def refreshCache (allocOk : Bool) (a : ArrayObj) (c : BufferData)
    (nextId : Nat) (freed : List Nat) : Bool × BufferData × Nat × List Nat :=
  if c.snap.isNone || shapeChanged a c then
    let freed1 := match c.snap with
      | some s => s.id :: freed
      | none => freed
    if allocOk then
      (false,
       { c with nd := a.ndim,
                snap := some { id := nextId,
                               shape := a.dims.take a.ndim,
                               strides := a.strides.take a.ndim } },
       nextId + 1, freed1)
    else
      (decide (0 < a.ndim), { c with nd := a.ndim, snap := none },
       nextId, freed1)
  else
    (false, c, nextId, freed)

/-- The freshly `malloc`ed `_buffer_data` of source lines 271-276:
`nd = 0`, all pointers NULL. -/
def emptyCache : BufferData := { format := none, nd := 0, snap := none }

/-- Source lines 270-277: ensure `self->buffer_info` holds a cache record
(allocating an empty one on the first call) before anything else runs. -/
def armCache (st : ExportState) : ExportState :=
  { st with buffer_info := some (st.buffer_info.getD emptyCache) }

/-- The state after the snapshot refresh: the cache record, allocation
counter and freed list are those produced by `refreshCache`. -/
def refreshedState (allocOk : Bool) (a : ArrayObj) (cache : BufferData)
    (st : ExportState) : ExportState :=
  { st with
      buffer_info := some (refreshCache allocOk a cache st.nextId st.freed).2.1,
      nextId := (refreshCache allocOk a cache st.nextId st.freed).2.2.1,
      freed := (refreshCache allocOk a cache st.nextId st.freed).2.2.2 }

/-- The view populated on the strided path (source lines 356-358): shape
and strides point into the cached snapshot. -/
def stridedView (a : ArrayObj) (fmt : Option (List Char)) (c : BufferData) :
    ViewRec :=
  { len := a.nbytes, itemsize := a.itemsize, readonly := !a.writeable,
    format := fmt, ndim := a.ndim, snapId := c.snap.map Snapshot.id,
    shape := c.snap.map Snapshot.shape,
    strides := c.snap.map Snapshot.strides }

/-- The view populated on the non-strided single-segment path (source
lines 360-364): zero-dimensional, no shape/strides. -/
def segView (a : ArrayObj) (fmt : Option (List Char)) : ViewRec :=
  { len := a.nbytes, itemsize := a.itemsize, readonly := !a.writeable,
    format := fmt, ndim := 0, snapId := none, shape := none,
    strides := none }

/-- `array_getbuffer` (source lines 258-377), taking the raw `flags`
word and testing it with the `PyBUF_*` masks exactly as the source does.
No writability validation exists anywhere: the `PyBUF_WRITABLE` bit is
consulted only as a constituent of the `PyBUF_STRIDED` mask test (line
325), and `view->readonly` is simply reported. -/
def array_getbuffer (allocOk : Bool) (a : ArrayObj) (flags : Nat)
    (st0 : ExportState) : Outcome × ExportState :=
  if hasBits flags PyBUF_C_CONTIGUOUS && !a.c_contiguous then
    (.err .notContiguous, armCache st0)
  else if hasBits flags PyBUF_F_CONTIGUOUS && !a.f_contiguous then
    (.err .notContiguous, armCache st0)
  else if hasBits flags PyBUF_ANY_CONTIGUOUS && !a.one_segment then
    (.err .notContiguous, armCache st0)
  else
    match formatStep a.descr (hasBits flags PyBUF_FORMAT) (armCache st0) with
    | (.error e, st) => (.err e, st)
    | (.ok fmt, st) =>
      if hasBits flags PyBUF_STRIDED then
        if (refreshCache allocOk a (st0.buffer_info.getD emptyCache)
              st.nextId st.freed).1 then
          (.crash, refreshedState allocOk a (st0.buffer_info.getD emptyCache) st)
        else
          (.ok (stridedView a fmt
                  (refreshCache allocOk a (st0.buffer_info.getD emptyCache)
                    st.nextId st.freed).2.1),
           refreshedState allocOk a (st0.buffer_info.getD emptyCache) st)
      else if a.one_segment then
        (.ok (segView a fmt), st)
      else
        (.err .notSingleSegment, st)

/-- `_array_dealloc_buffer_info` (source lines 392-406): at array
destruction the cached snapshot and the cache record are freed. -/
def _array_dealloc_buffer_info (st : ExportState) : ExportState :=
  match st.buffer_info with
  | none => st
  | some c =>
    let freed := match c.snap with
      | some s => s.id :: st.freed
      | none => st.freed
    { st with buffer_info := none, freed := freed }

/-! ## Specification-side definitions (for the refinement claims) -/

/-- The byte-order prefix of §6 of the specification: present iff the
descriptor declares one of the orders `<`, `>`, `=`. -/
def orderMark (bo : Char) : List Char :=
  if bo = '<' ∨ bo = '>' ∨ bo = '=' then [bo] else []

/-- The §6 type-code table of the specification, written from the spec's
words: `b B h H i I l L q Q f d g Zf Zd Zg O`, plus `<N>s` for byte
strings of byte length N and `<N>w` for wide strings of byte length 4N;
`none` for a type the grammar does not cover (including a wide string
whose byte length is not a multiple of the 4-byte unit). -/
def specTypeCode : TypeNum → Nat → Option (List Char)
  | .byte, _ => some ['b']
  | .ubyte, _ => some ['B']
  | .short, _ => some ['h']
  | .ushort, _ => some ['H']
  | .int, _ => some ['i']
  | .uint, _ => some ['I']
  | .long, _ => some ['l']
  | .ulong, _ => some ['L']
  | .longlong, _ => some ['q']
  | .ulonglong, _ => some ['Q']
  | .float, _ => some ['f']
  | .double, _ => some ['d']
  | .longdouble, _ => some ['g']
  | .cfloat, _ => some ['Z', 'f']
  | .cdouble, _ => some ['Z', 'd']
  | .clongdouble, _ => some ['Z', 'g']
  | .string, n => some ((toString n).toList ++ ['s'])
  | .unicode, n =>
    if n % 4 = 0 then some ((toString (n / 4)).toList ++ ['w']) else none
  | .object, _ => some ['O']
  | .other, _ => none

/-! ## Concrete instances used in the scenario theorems and witnesses -/

/-- The encoder's starting state (`_tmp_string fmt = {0,0,0}` with
`offset = 0`). -/
def initFmt : FmtState := { s := [], offset := 0, err := none }

/-- State of an array that has never been exported: no `buffer_info`, no
cached format string. -/
def freshState : ExportState :=
  { buffer_info := none, descrFormat := none, nextId := 0, freed := [],
    fmtComputes := 0 }

/-- An unsigned-byte scalar descriptor with order-irrelevant byte order. -/
def ubyteDescr : Descr := .mk '|' 1 .ubyte false []

/-- Flag word demanding shape/stride access (the spec's
REQUIRE_SHAPE_STRIDES): the full `PyBUF_STRIDED` mask, which includes the
writable bit. -/
def stridedFlags : Nat := PyBUF_STRIDED

/-- Flag word demanding only a format string (the spec's REQUIRE_FORMAT). -/
def formatFlags : Nat := PyBUF_FORMAT

/-- Flag word demanding only write access (the spec's REQUIRE_WRITABLE). -/
def writableFlags : Nat := PyBUF_WRITABLE

/-- A contiguous one-dimensional buffer with two 4-byte items. -/
def exArr : ArrayObj :=
  { ndim := 1, dims := [2], strides := [4], c_contiguous := true,
    f_contiguous := true, writeable := true, one_segment := true,
    nbytes := 8, itemsize := 4, descr := ubyteDescr }

/-- `exArr` after its single extent grew from 2 to 3. -/
def exArr' : ArrayObj := { exArr with dims := [3], nbytes := 12 }

/-- A read-only single-segment buffer (its WRITEABLE flag is clear). -/
def c1Arr : ArrayObj :=
  { ndim := 1, dims := [4], strides := [1], c_contiguous := true,
    f_contiguous := true, writeable := false, one_segment := true,
    nbytes := 4, itemsize := 1, descr := ubyteDescr }

/-- The view that the source actually returns for a REQUIRE_WRITABLE
request on the read-only `c1Arr`. -/
def c1View : ViewRec :=
  { len := 4, itemsize := 1, readonly := true, format := none, ndim := 0,
    snapId := none, shape := none, strides := none }

/-- A child descriptor carrying a sub-array shape
(`descr->subarray != NULL`). -/
def c2Child : Descr := .mk '|' 1 .byte true []

/-- A record descriptor with one field `a` whose child has a sub-array
shape, nested one level below the top. -/
def c2Descr : Descr := .mk '|' 4 .other false [("a", 0, c2Child)]

/-- A single-segment buffer whose element type is `c2Descr`. -/
def c2Arr : ArrayObj :=
  { ndim := 0, dims := [], strides := [], c_contiguous := true,
    f_contiguous := true, writeable := true, one_segment := true,
    nbytes := 4, itemsize := 4, descr := c2Descr }

/-- The view the source returns for a REQUIRE_FORMAT export of `c2Arr`:
success, carrying the partial format string. -/
def c2View : ViewRec :=
  { len := 4, itemsize := 4, readonly := false,
    format := some "T\x7b:a:\x7d".toList, ndim := 0, snapId := none,
    shape := none, strides := none }

/-- The two-field record descriptor of the round-trip scenario: unsigned
byte `a` at offset 0, double `b` at offset 8, total element size 16. -/
def c3Descr : Descr :=
  .mk '|' 16 .other false
    [("a", (0 : Int), Descr.mk '|' 1 .ubyte false []),
     ("b", (8 : Int), Descr.mk '|' 8 .double false [])]

/-- A non-single-segment strided buffer (e.g. a sliced view with gaps). -/
def c10Arr : ArrayObj :=
  { ndim := 1, dims := [2], strides := [8], c_contiguous := false,
    f_contiguous := false, writeable := true, one_segment := false,
    nbytes := 8, itemsize := 4, descr := ubyteDescr }

/-- The empty flag word: no capability demanded (PyBUF_SIMPLE). -/
def simpleFlags : Nat := 0

/-- The view returned for a REQUIRE_FORMAT export of `c1Arr`. -/
def c9View : ViewRec :=
  { len := 4, itemsize := 1, readonly := true, format := some ['B'],
    ndim := 0, snapId := none, shape := none, strides := none }

/-- The export state after that export: format string cached on the
descriptor, one format computation performed. -/
def c9State : ExportState :=
  { buffer_info := some emptyCache, descrFormat := some ['B'], nextId := 0,
    freed := [], fmtComputes := 1 }

/-- The predicate classifying the errors the format-string encoder can
set: exactly the four failures of `_buffer_format_string`. -/
def encoderErrOk : Option Err → Prop
  | none => True
  | some e => e = .unsupportedLayout ∨ e = .invalidFieldName ∨
      e = .invalidWidth ∨ e = .unknownElementType

/-- The export state after a first strided export of `exArr`: the cache
holds snapshot 0 with extent 2 and stride 4. -/
def exState1 : ExportState :=
  (array_getbuffer true exArr stridedFlags freshState).2

/-- The view returned by that first export: it holds snapshot 0. -/
def exView1 : ViewRec :=
  { len := 8, itemsize := 4, readonly := false, format := none, ndim := 1,
    snapId := some 0, shape := some [(2 : Int)],
    strides := some [(4 : Int)] }

/-- The view returned by a strided export of `exArr'` after the extent
change: it holds the replacement snapshot 1. -/
def exView3 : ViewRec :=
  { len := 12, itemsize := 4, readonly := false, format := none, ndim := 1,
    snapId := some 1, shape := some [(3 : Int)],
    strides := some [(4 : Int)] }

/-- The export state after that export: snapshot 0 freed, snapshot 1
cached. -/
def exState3Cache : BufferData :=
  { format := none, nd := 1,
    snap := some { id := 1, shape := [(3 : Int)],
                   strides := [(4 : Int)] } }

def exState3 : ExportState :=
  { buffer_info := some exState3Cache, descrFormat := none, nextId := 2,
    freed := [0], fmtComputes := 0 }

/-! ## Theorems -/

/-- C3: encoding the two-field record descriptor (unsigned byte `a` at
offset 0, double `b` at offset 8, element size 16) succeeds and produces
exactly the format string `T` open-brace `B:a:xxxxxxxd:b:` close-brace
(seven padding marks covering bytes 1-7), leaving the cursor at byte 16
and no error set. -/
theorem c3_two_field_record_format :
    _buffer_format_string c3Descr initFmt =
      (0, { s := "T\x7bB:a:xxxxxxxd:b:\x7d".toList, offset := 16,
            err := none }) := by
  decide

/-- C2 (failing input): on a record descriptor whose field `a` holds a
sub-array-shaped child, the encoder discards the child's failure — source
line 173 ignores the recursive call's return code — so it returns success
code 0 with the partial string `T` open-brace `:a:` close-brace while the
error indicator is left set; the export entry point then reports success
and the partial string IS cached on the descriptor, contradicting the
claim that encoding never partially succeeds.  Only the top-level
sub-array case fails as the claim states. -/
theorem c2_nested_subarray_encode_succeeds :
    (_buffer_format_string c2Descr initFmt).1 = 0 ∧
    (_buffer_format_string c2Descr initFmt).2.s = "T\x7b:a:\x7d".toList ∧
    (_buffer_format_string c2Descr initFmt).2.err =
      some Err.unsupportedLayout ∧
    (array_getbuffer true c2Arr formatFlags freshState).1 =
      Outcome.ok c2View ∧
    (array_getbuffer true c2Arr formatFlags freshState).2.descrFormat =
      some "T\x7b:a:\x7d".toList ∧
    (_buffer_format_string c2Child initFmt).1 = -1 ∧
    (_buffer_format_string c2Child initFmt).2.err =
      some Err.unsupportedLayout := by
  decide

/-- C1 (counterexample): an export request demanding write access
(REQUIRE_WRITABLE) on the read-only buffer `c1Arr` does NOT fail with
`NotWritable`: the source never consults the writable bit, and a
ViewRecord is returned, merely carrying `readonly = true`. -/
theorem c1_counterexample :
    (array_getbuffer true c1Arr writableFlags freshState).1 =
      Outcome.ok c1View ∧
    c1View.readonly = true := by
  decide

/-- C4 (failing input): growing the shape/stride cache from the snapshot
of `exArr` (snapshot 0, extent 2) to the changed shape of `exArr'` while
the `malloc` of the new snapshot fails.  The source frees the old
snapshot FIRST and then uses the unchecked NULL result: the call crashes
instead of returning `AllocationFailure`, snapshot 0 is already freed,
and the cache is left with `nd` updated and no snapshot — the previous
cache state is corrupted, contradicting the claim. -/
theorem c4_alloc_failure_corrupts_cache :
    (array_getbuffer false exArr' stridedFlags exState1).1 =
      Outcome.crash ∧
    (array_getbuffer false exArr' stridedFlags exState1).1 ≠
      Outcome.err Err.allocationFailure ∧
    (array_getbuffer false exArr' stridedFlags exState1).2.freed = [0] ∧
    (array_getbuffer false exArr' stridedFlags exState1).2.buffer_info =
      some { format := none, nd := 1, snap := none } ∧
    exState1.buffer_info =
      some { format := none, nd := 1,
             snap := some { id := 0, shape := [(2 : Int)],
                            strides := [(4 : Int)] } } := by
  decide

/-- C7 (failing input): the first strided export of `exArr` returns view
`exView1` holding snapshot 0; the source defines no release operation
(`releasebufferproc` is 0), yet the very next export after the extent
change to `exArr'` frees snapshot 0 while that outstanding view still
holds it, and destruction then frees the replacement snapshot 1 — so a
held snapshot is freed before any release, and snapshot storage is not
freed exactly once at destruction. -/
theorem c7_snapshot_freed_while_view_outstanding :
    array_getbuffer true exArr stridedFlags freshState =
      (Outcome.ok exView1, exState1) ∧
    exView1.snapId = some 0 ∧
    exState1.freed = [] ∧
    (array_getbuffer true exArr' stridedFlags exState1).2.freed = [0] ∧
    (_array_dealloc_buffer_info
        (array_getbuffer true exArr' stridedFlags exState1).2).freed =
      [1, 0] := by
  decide

/-! ## Helper lemmas -/

theorem getD_take (xs : List Int) (n k : Nat) (d : Int) (h : k < n) :
    (xs.take n).getD k d = xs.getD k d := by
  simp [List.getD_eq_getElem?_getD, List.getElem?_take, h]

theorem appendName_err_ok (cs : List Char) (st : FmtState)
    (h : encoderErrOk st.err) : encoderErrOk (appendName cs st).2.err := by
  induction cs generalizing st with
  | nil => exact h
  | cons c cs ih =>
    rw [appendName]
    split
    · exact Or.inr (Or.inl rfl)
    · exact ih (appendChar st c) h

mutual

theorem fmt_err_ok (d : Descr) (st : FmtState) (h : encoderErrOk st.err) :
    encoderErrOk (_buffer_format_string d st).2.err := by
  rcases d with ⟨bo, elsize, tn, subarr, fields⟩
  rw [_buffer_format_string]
  split
  · exact Or.inl rfl
  · split
    · have hrec := fields_err_ok fields (appendStr st "T\x7b") h
      rcases hF : _format_fields fields (appendStr st "T\x7b") with ⟨r, st2⟩
      rw [hF] at hrec
      simp only [hF]
      split
      · exact hrec
      · exact hrec
    · cases tn <;>
        simp only [] <;>
        (repeat' split) <;>
        first
        | exact h
        | exact Or.inl rfl
        | exact Or.inr (Or.inl rfl)
        | exact Or.inr (Or.inr (Or.inl rfl))
        | exact Or.inr (Or.inr (Or.inr rfl))

theorem fields_err_ok (fs : List (String × Int × Descr)) (st : FmtState)
    (h : encoderErrOk st.err) : encoderErrOk (_format_fields fs st).2.err := by
  match fs with
  | [] => exact h
  | (name, off, child) :: rest =>
    rw [_format_fields]
    rcases hC : _buffer_format_string child
        { appendPad st off with
            offset := (appendPad st off).offset + (child.elsize : Int) }
      with ⟨rc, stc⟩
    have hrec := fmt_err_ok child
      { appendPad st off with
          offset := (appendPad st off).offset + (child.elsize : Int) } h
    rw [hC] at hrec
    rcases hN : appendName name.toList (appendChar stc ':') with ⟨ok, stn⟩
    have hname := appendName_err_ok name.toList (appendChar stc ':') hrec
    rw [hN] at hname
    cases ok
    · simp only [hC, hN]
      exact hname
    · simp only [hC, hN]
      exact fields_err_ok rest (appendChar stn ':') hname

end

theorem formatStep_state (d : Descr) (w : Bool) (st : ExportState) :
    (formatStep d w st).2.buffer_info = st.buffer_info ∧
    (formatStep d w st).2.nextId = st.nextId ∧
    (formatStep d w st).2.freed = st.freed ∧
    (formatStep d w st).2.descrFormat.isSome ≥ st.descrFormat.isSome := by
  unfold formatStep
  split
  · split
    · exact ⟨rfl, rfl, rfl, le_refl _⟩
    · rename_i hf
      split
      · exact ⟨rfl, rfl, rfl, by simp [hf]⟩
      · exact ⟨rfl, rfl, rfl, by simp [hf]⟩
  · exact ⟨rfl, rfl, rfl, le_refl _⟩

theorem formatStep_cached (d : Descr) (st : ExportState) (f : List Char)
    (hc : st.descrFormat = some f) :
    formatStep d true st = (.ok (some f), st) := by
  unfold formatStep
  rw [hc]
  rfl

theorem formatStep_cached_any (d : Descr) (w : Bool) (st : ExportState)
    (f : List Char) (hc : st.descrFormat = some f) :
    formatStep d w st = (.ok (if w then some f else none), st) := by
  cases w
  · rfl
  · exact formatStep_cached d st f hc

theorem formatStep_ok_inv (d : Descr) (w : Bool) (st : ExportState)
    (fmt : Option (List Char)) (stf : ExportState) (hw : w = true)
    (h : formatStep d w st = (.ok fmt, stf)) :
    fmt = stf.descrFormat ∧ stf.descrFormat.isSome = true ∧
    stf.fmtComputes = st.fmtComputes +
      (if st.descrFormat.isSome then 0 else 1) ∧
    (∀ f0, st.descrFormat = some f0 → stf = st) := by
  subst hw
  unfold formatStep at h
  rw [if_pos rfl] at h
  split at h
  · rename_i f hf
    rw [Prod.mk.injEq, Except.ok.injEq] at h
    obtain ⟨h1, h2⟩ := h
    subst h2
    exact ⟨by rw [← h1, hf], by simp [hf], by simp [hf], fun f0 _ => rfl⟩
  · rename_i hf
    split at h
    · rw [Prod.mk.injEq, Except.ok.injEq] at h
      obtain ⟨h1, h2⟩ := h
      subst h2
      subst h1
      refine ⟨rfl, by simp, by simp [hf], ?_⟩
      intro f0 hf0
      rw [hf] at hf0
      exact Option.noConfusion hf0
    · exact absurd h (by simp)

theorem formatStep_error_inv (d : Descr) (w : Bool) (st : ExportState)
    (e : Err) (st' : ExportState)
    (h : formatStep d w st = (.error e, st')) :
    e = .unsupportedLayout ∨ e = .invalidFieldName ∨
    e = .invalidWidth ∨ e = .unknownElementType := by
  unfold formatStep at h
  split at h
  · split at h
    · exact absurd h (by simp)
    · split at h
      · exact absurd h (by simp)
      · rw [Prod.mk.injEq, Except.error.injEq] at h
        obtain ⟨h1, -⟩ := h
        subst h1
        have hok := fmt_err_ok d { s := [], offset := 0, err := none } trivial
        rcases hre : (_buffer_format_string d
            { s := [], offset := 0, err := none }).2.err with - | e0
        · simp [hre]
        · rw [hre] at hok
          simpa [hre] using hok
  · exact absurd h (by simp)

theorem shapeChanged_false_pointwise (a : ArrayObj) (c : BufferData)
    (s : Snapshot) (h : shapeChanged a c = false) (hsnap : c.snap = some s) :
    c.nd = a.ndim ∧
    ∀ k < a.ndim, s.shape.getD k 0 = a.dims.getD k 0 ∧
      s.strides.getD k 0 = a.strides.getD k 0 := by
  unfold shapeChanged at h
  split at h
  · exact absurd h (by simp)
  · rename_i hnd
    rw [hsnap] at h
    simp only [not_ne_iff] at hnd
    refine ⟨hnd, ?_⟩
    intro k hk
    have := List.any_eq_false.mp h k (List.mem_range.mpr hk)
    simp only [Bool.or_eq_true, bne_iff_ne, not_or, Decidable.not_not] at this
    simpa using this

theorem shapeChanged_false_of_pointwise (a : ArrayObj) (c : BufferData)
    (s : Snapshot) (hnd : c.nd = a.ndim) (hsnap : c.snap = some s)
    (hp : ∀ k < a.ndim, s.shape.getD k 0 = a.dims.getD k 0 ∧
      s.strides.getD k 0 = a.strides.getD k 0) :
    shapeChanged a c = false := by
  unfold shapeChanged
  rw [if_neg (by simp [hnd]), hsnap]
  refine List.any_eq_false.mpr ?_
  intro k hk
  have := hp k (List.mem_range.mp hk)
  rw [this.1, this.2]
  simp

theorem shapeChanged_true_of_diff (a : ArrayObj) (c : BufferData)
    (s : Snapshot) (k : Nat) (hnd : c.nd = a.ndim) (hsnap : c.snap = some s)
    (hk : k < a.ndim) (hne : s.shape.getD k 0 ≠ a.dims.getD k 0) :
    shapeChanged a c = true := by
  unfold shapeChanged
  rw [if_neg (by simp [hnd]), hsnap]
  refine List.any_eq_true.mpr ⟨k, List.mem_range.mpr hk, ?_⟩
  simp only [Bool.or_eq_true, bne_iff_ne]
  exact Or.inl hne

theorem refreshCache_reuse (allocOk : Bool) (a : ArrayObj) (c : BufferData)
    (n : Nat) (f : List Nat) (s : Snapshot) (hsnap : c.snap = some s)
    (hch : shapeChanged a c = false) :
    refreshCache allocOk a c n f = (false, c, n, f) := by
  unfold refreshCache
  rw [if_neg (by simp [hsnap, hch])]

theorem refreshCache_grow (a : ArrayObj) (c : BufferData) (n : Nat)
    (f : List Nat) (h : (c.snap.isNone || shapeChanged a c) = true) :
    refreshCache true a c n f =
      (false,
       { c with nd := a.ndim,
                snap := some { id := n, shape := a.dims.take a.ndim,
                               strides := a.strides.take a.ndim } },
       n + 1,
       match c.snap with | some s => s.id :: f | none => f) := by
  unfold refreshCache
  rw [if_pos h, if_pos rfl]

theorem refreshCache_matches (a : ArrayObj) (c : BufferData) (n n' : Nat)
    (f f' : List Nat) (c' : BufferData)
    (hr : refreshCache true a c n f = (false, c', n', f')) :
    c'.nd = a.ndim ∧ n ≤ n' ∧
    ∃ s, c'.snap = some s ∧
      (∀ k < a.ndim, s.shape.getD k 0 = a.dims.getD k 0 ∧
        s.strides.getD k 0 = a.strides.getD k 0) ∧
      ((∀ s0, c.snap = some s0 → s0.id < n) → s.id < n') := by
  unfold refreshCache at hr
  split at hr
  · rw [if_pos rfl] at hr
    rw [Prod.mk.injEq, Prod.mk.injEq, Prod.mk.injEq] at hr
    obtain ⟨-, hc', hn', -⟩ := hr
    subst hc'
    subst hn'
    refine ⟨rfl, Nat.le_succ n, _, rfl, ?_, fun _ => Nat.lt_succ_self n⟩
    intro k hk
    exact ⟨getD_take _ _ _ _ hk, getD_take _ _ _ _ hk⟩
  · rename_i h
    simp only [Bool.or_eq_true, not_or] at h
    obtain ⟨h1, h2⟩ := h
    rw [Prod.mk.injEq, Prod.mk.injEq, Prod.mk.injEq] at hr
    obtain ⟨-, hc', hn', -⟩ := hr
    subst hc'
    subst hn'
    rcases hs : c.snap with - | s
    · rw [hs] at h1
      simp at h1
    · have hch : shapeChanged a c = false := by
        revert h2
        cases shapeChanged a c <;> simp
      obtain ⟨hnd, hp⟩ := shapeChanged_false_pointwise a c s hch hs
      exact ⟨hnd, le_refl n, s, rfl, hp, fun hb => hb s rfl⟩

theorem getbuffer_ok_inv (allocOk : Bool) (a : ArrayObj) (flags : Nat)
    (st : ExportState) (v : ViewRec) (st' : ExportState)
    (h : array_getbuffer allocOk a flags st = (Outcome.ok v, st')) :
    (hasBits flags PyBUF_STRIDED = true →
      ∃ c', refreshCache allocOk a (st.buffer_info.getD emptyCache)
              st.nextId st.freed = (false, c', st'.nextId, st'.freed) ∧
        st'.buffer_info = some c' ∧
        v.ndim = a.ndim ∧
        v.snapId = c'.snap.map Snapshot.id ∧
        v.shape = c'.snap.map Snapshot.shape ∧
        v.strides = c'.snap.map Snapshot.strides) ∧
    (hasBits flags PyBUF_STRIDED = false →
      a.one_segment = true ∧ v.ndim = 0 ∧ v.shape = none ∧ v.snapId = none ∧
      st'.buffer_info = some (st.buffer_info.getD emptyCache) ∧
      st'.nextId = st.nextId ∧ st'.freed = st.freed) := by
  unfold array_getbuffer at h
  split at h
  · exact absurd h (by simp)
  · split at h
    · exact absurd h (by simp)
    · split at h
      · exact absurd h (by simp)
      · split at h
        · exact absurd h (by simp)
        · rename_i fmt stf heq
          obtain ⟨hbi, hnext, hfreed, -⟩ :=
            (heq ▸ formatStep_state a.descr (hasBits flags PyBUF_FORMAT) (armCache st))
          have hbi' : stf.buffer_info = (armCache st).buffer_info := hbi
          have hnext' : stf.nextId = st.nextId := hnext
          have hfreed' : stf.freed = st.freed := hfreed
          split at h
          · rename_i hstr
            split at h
            · exact absurd h (by simp)
            · rename_i hcr
              rw [Bool.not_eq_true] at hcr
              rw [Prod.mk.injEq, Outcome.ok.injEq] at h
              obtain ⟨hv, hst'⟩ := h
              subst hv
              subst hst'
              refine ⟨fun _ => ?_, fun hc => absurd (hc ▸ hstr) (by simp)⟩
              simp only [refreshedState, stridedView]
              rw [hnext', hfreed'] at hcr ⊢
              refine ⟨(refreshCache allocOk a (st.buffer_info.getD emptyCache)
                        st.nextId st.freed).2.1, ?_, ?_, ?_, ?_, ?_, ?_⟩
              · rw [← hcr]
              · rfl
              · trivial
              · rfl
              · rfl
              · rfl
          · rename_i hstr
            rw [Bool.not_eq_true] at hstr
            split at h
            · rename_i hseg
              rw [Prod.mk.injEq, Outcome.ok.injEq] at h
              obtain ⟨hv, hst'⟩ := h
              subst hv
              subst hst'
              refine ⟨fun hc => absurd (hstr ▸ hc) (by simp), fun _ => ?_⟩
              refine ⟨hseg, rfl, rfl, rfl, ?_, hnext', hfreed'⟩
              rw [hbi']
              rfl
            · exact absurd h (by simp)

theorem getbuffer_no_notWritable (allocOk : Bool) (a : ArrayObj) (flags : Nat)
    (st : ExportState) :
    (array_getbuffer allocOk a flags st).1 ≠ Outcome.err Err.notWritable := by
  unfold array_getbuffer
  split
  · simp
  · split
    · simp
    · split
      · simp
      · rcases hF : formatStep a.descr (hasBits flags PyBUF_FORMAT) (armCache st) with ⟨r, stf⟩
        cases r with
        | error e =>
          rcases formatStep_error_inv a.descr (hasBits flags PyBUF_FORMAT) (armCache st) e stf hF
            with h1 | h1 | h1 | h1 <;> subst h1 <;> simp
        | ok fmt =>
          (repeat' split) <;> simp_all

theorem getbuffer_ok_readonly (allocOk : Bool) (a : ArrayObj) (flags : Nat)
    (st : ExportState) (v : ViewRec) (st' : ExportState)
    (h : array_getbuffer allocOk a flags st = (Outcome.ok v, st')) :
    v.readonly = !a.writeable := by
  unfold array_getbuffer at h
  split at h
  · exact absurd h (by simp)
  · split at h
    · exact absurd h (by simp)
    · split at h
      · exact absurd h (by simp)
      · split at h
        · exact absurd h (by simp)
        · split at h
          · split at h
            · exact absurd h (by simp)
            · rw [Prod.mk.injEq, Outcome.ok.injEq] at h
              obtain ⟨hv, -⟩ := h
              subst hv
              rfl
          · split at h
            · rw [Prod.mk.injEq, Outcome.ok.injEq] at h
              obtain ⟨hv, -⟩ := h
              subst hv
              rfl
            · exact absurd h (by simp)

theorem getbuffer_keeps_cached_format (allocOk : Bool) (a : ArrayObj)
    (flags : Nat) (st : ExportState) (r : Outcome) (st' : ExportState)
    (f : List Char) (hc : st.descrFormat = some f)
    (h : array_getbuffer allocOk a flags st = (r, st')) :
    st'.descrFormat = some f ∧ st'.fmtComputes = st.fmtComputes ∧
    (∀ v2, r = Outcome.ok v2 → hasBits flags PyBUF_FORMAT = true → v2.format = some f) := by
  unfold array_getbuffer at h
  split at h
  · rw [Prod.mk.injEq] at h
    obtain ⟨hr, hst'⟩ := h
    subst hst'
    exact ⟨hc, rfl, fun v2 hv2 _ => absurd (hr ▸ hv2) (by simp)⟩
  · split at h
    · rw [Prod.mk.injEq] at h
      obtain ⟨hr, hst'⟩ := h
      subst hst'
      exact ⟨hc, rfl, fun v2 hv2 _ => absurd (hr ▸ hv2) (by simp)⟩
    · split at h
      · rw [Prod.mk.injEq] at h
        obtain ⟨hr, hst'⟩ := h
        subst hst'
        exact ⟨hc, rfl, fun v2 hv2 _ => absurd (hr ▸ hv2) (by simp)⟩
      · split at h
        · rename_i e stf heq
          rw [formatStep_cached_any a.descr (hasBits flags PyBUF_FORMAT) (armCache st) f hc]
            at heq
          exact absurd heq (by simp)
        · rename_i fmt stf heq
          rw [formatStep_cached_any a.descr (hasBits flags PyBUF_FORMAT) (armCache st) f hc]
            at heq
          rw [Prod.mk.injEq, Except.ok.injEq] at heq
          obtain ⟨hfmt, hstf⟩ := heq
          subst hstf
          split at h
          · split at h
            · rw [Prod.mk.injEq] at h
              obtain ⟨hr, hst'⟩ := h
              subst hst'
              exact ⟨hc, rfl, fun v2 hv2 _ => absurd (hr ▸ hv2) (by simp)⟩
            · rw [Prod.mk.injEq] at h
              obtain ⟨hr, hst'⟩ := h
              subst hst'
              refine ⟨hc, rfl, ?_⟩
              intro v2 hv2 hw
              rw [← hr] at hv2
              rw [Outcome.ok.injEq] at hv2
              subst hv2
              rw [stridedView]
              rw [← hfmt, hw]
              rfl
          · split at h
            · rw [Prod.mk.injEq] at h
              obtain ⟨hr, hst'⟩ := h
              subst hst'
              refine ⟨hc, rfl, ?_⟩
              intro v2 hv2 hw
              rw [← hr] at hv2
              rw [Outcome.ok.injEq] at hv2
              subst hv2
              rw [segView]
              rw [← hfmt, hw]
              rfl
            · rw [Prod.mk.injEq] at h
              obtain ⟨hr, hst'⟩ := h
              subst hst'
              exact ⟨hc, rfl, fun v2 hv2 _ => absurd (hr ▸ hv2) (by simp)⟩

theorem getbuffer_format_inv (allocOk : Bool) (a : ArrayObj) (flags : Nat)
    (st : ExportState) (v : ViewRec) (st' : ExportState)
    (hw : hasBits flags PyBUF_FORMAT = true)
    (h : array_getbuffer allocOk a flags st = (Outcome.ok v, st')) :
    v.format = st'.descrFormat ∧ st'.descrFormat.isSome = true := by
  unfold array_getbuffer at h
  split at h
  · exact absurd h (by simp)
  · split at h
    · exact absurd h (by simp)
    · split at h
      · exact absurd h (by simp)
      · split at h
        · exact absurd h (by simp)
        · rename_i fmt stf heq
          obtain ⟨hfd, hsome, -, -⟩ :=
            formatStep_ok_inv a.descr (hasBits flags PyBUF_FORMAT) (armCache st) fmt stf hw heq
          split at h
          · split at h
            · exact absurd h (by simp)
            · rw [Prod.mk.injEq, Outcome.ok.injEq] at h
              obtain ⟨hv, hst'⟩ := h
              subst hv
              subst hst'
              exact ⟨hfd, hsome⟩
          · split at h
            · rw [Prod.mk.injEq, Outcome.ok.injEq] at h
              obtain ⟨hv, hst'⟩ := h
              subst hv
              subst hst'
              exact ⟨hfd, hsome⟩
            · exact absurd h (by simp)

/-- C1 (amended): no writability validation exists in the export path —
an export whose flags demand write access on a read-only buffer is never
rejected with `NotWritable` (no code path produces that error), and when
a ViewRecord is returned it carries `readonly = true`.  The
`PyBUF_WRITABLE` bit is consulted only as a constituent of the
`PyBUF_STRIDED` mask test, never for a writability check. -/
theorem c1_amended_no_writable_check (allocOk : Bool) (a : ArrayObj)
    (flags : Nat) (st : ExportState) (hro : a.writeable = false) :
    (array_getbuffer allocOk a flags st).1 ≠ Outcome.err Err.notWritable ∧
    (∀ v st', array_getbuffer allocOk a flags st = (Outcome.ok v, st') →
      v.readonly = true) := by
  refine ⟨getbuffer_no_notWritable allocOk a flags st, ?_⟩
  intro v st' h
  rw [getbuffer_ok_readonly allocOk a flags st v st' h, hro]
  rfl

/-- C1 witness: the amended statement instantiated on the concrete
read-only buffer `c1Arr` with the REQUIRE_WRITABLE flag word. -/
theorem c1_witness :
    c1Arr.writeable = false ∧
    ((array_getbuffer true c1Arr writableFlags freshState).1 ≠
       Outcome.err Err.notWritable ∧
     (∀ v st', array_getbuffer true c1Arr writableFlags freshState =
         (Outcome.ok v, st') → v.readonly = true)) :=
  ⟨by decide,
   c1_amended_no_writable_check true c1Arr writableFlags freshState
     (by decide)⟩

/-- C5 (failing input): the source never fails with `InvalidWidth`.  Its
only wide-string width check is `assert(elsize % 4 == 0)` (line 238),
which aborts the process when assertions are enabled and is compiled out
in the shipped NDEBUG build — where encoding a 6-byte wide-string
descriptor SUCCEEDS with the truncated repeat count `1w` and no error
set.  Only the exact-division half of the claim holds: a byte length of
8 encodes to `2w`. -/
theorem c5_unicode_no_error_return :
    _buffer_format_string (.mk '|' 6 .unicode false []) initFmt =
      (0, { s := "1w".toList, offset := 0, err := none }) ∧
    (_buffer_format_string (.mk '|' 6 .unicode false []) initFmt).2.err ≠
      some Err.invalidWidth ∧
    _buffer_format_string (.mk '|' 8 .unicode false []) initFmt =
      (0, { s := "2w".toList, offset := 0, err := none }) := by
  decide

/-- C8: for every non-record element descriptor whose type the grammar
covers (`specTypeCode` written from the spec's §6 table), the encoder
succeeds and produces exactly the optional byte-order mark — present iff
the descriptor declares one of `<`, `>`, `=` — followed by the table's
type code. -/
theorem c8_scalar_format_table (bo : Char) (elsize : Nat) (tn : TypeNum)
    (code : List Char) (h : specTypeCode tn elsize = some code) :
    _buffer_format_string (.mk bo elsize tn false []) initFmt =
      (0, { s := orderMark bo ++ code, offset := 0, err := none }) := by
  cases tn <;> simp only [specTypeCode] at h
  case other => exact Option.noConfusion h
  case unicode =>
    split at h
    case isTrue h4 =>
      rw [Option.some.injEq] at h
      subst h
      by_cases hbo : bo = '<' ∨ bo = '>' ∨ bo = '=' <;>
        simp [_buffer_format_string, appendChar, appendStr, orderMark,
          initFmt, hbo, h4]
    case isFalse => exact Option.noConfusion h
  all_goals
    rw [Option.some.injEq] at h
    subst h
    by_cases hbo : bo = '<' ∨ bo = '>' ∨ bo = '=' <;>
      simp [_buffer_format_string, appendChar, appendStr, orderMark,
        initFmt, hbo]

/-- C8 witness: a little-endian double encodes to `<d`. -/
theorem c8_witness :
    specTypeCode .double 8 = some ['d'] ∧
    _buffer_format_string (.mk '<' 8 .double false []) initFmt =
      (0, { s := orderMark '<' ++ ['d'], offset := 0, err := none }) :=
  ⟨by decide, c8_scalar_format_table '<' 8 .double ['d'] (by decide)⟩

/-- C9: once a format-requesting export succeeds, the format string is
cached on the descriptor: the returned view carries exactly the cached
string, and a second export on the same descriptor performs no further
format computation, leaves the cache unchanged, and returns the identical
string. -/
theorem c9_format_cached_once (allocOk allocOk2 : Bool) (a : ArrayObj)
    (flags : Nat) (st st' st2 : ExportState) (v : ViewRec) (r2 : Outcome)
    (hw : hasBits flags PyBUF_FORMAT = true)
    (h1 : array_getbuffer allocOk a flags st = (Outcome.ok v, st'))
    (h2 : array_getbuffer allocOk2 a flags st' = (r2, st2)) :
    v.format = st'.descrFormat ∧ st'.descrFormat.isSome = true ∧
    st2.descrFormat = st'.descrFormat ∧ st2.fmtComputes = st'.fmtComputes ∧
    (∀ v2, r2 = Outcome.ok v2 → v2.format = v.format) := by
  obtain ⟨hv, hsome⟩ := getbuffer_format_inv allocOk a flags st v st' hw h1
  obtain ⟨f, hf⟩ := Option.isSome_iff_exists.mp hsome
  obtain ⟨k1, k2, k3⟩ :=
    getbuffer_keeps_cached_format allocOk2 a flags st' r2 st2 f hf h2
  refine ⟨hv, hsome, by rw [k1, hf], k2, ?_⟩
  intro v2 hr2
  rw [k3 v2 hr2 hw, hv, hf]

/-- C9 witness: two REQUIRE_FORMAT exports of `c1Arr`; the first computes
and caches `B`, the second returns the identical cached string with the
computation counter unchanged. -/
theorem c9_witness :
    hasBits formatFlags PyBUF_FORMAT = true ∧
    array_getbuffer true c1Arr formatFlags freshState =
      (Outcome.ok c9View, c9State) ∧
    array_getbuffer true c1Arr formatFlags c9State =
      (Outcome.ok c9View, c9State) ∧
    (c9View.format = c9State.descrFormat ∧
     c9State.descrFormat.isSome = true) :=
  ⟨by decide, by decide, by decide,
   ⟨(c9_format_cached_once true true c1Arr formatFlags freshState c9State
       c9State c9View (Outcome.ok c9View) (by decide) (by decide)
       (by decide)).1,
    (c9_format_cached_once true true c1Arr formatFlags freshState c9State
       c9State c9View (Outcome.ok c9View) (by decide) (by decide)
       (by decide)).2.1⟩⟩

/-- C6: two strided exports of an unchanged buffer return shape/stride
data from the identical cached snapshot (same allocation id, same data,
no new allocation), while a strided export after one extent changed
produces a freshly allocated snapshot holding the updated extents and
strides, and the old snapshot is not the one returned. -/
theorem c6_snapshot_reuse_and_replacement (a a' : ArrayObj) (flags : Nat)
    (st0 st1 st2 st3 : ExportState) (v1 v2 v3 : ViewRec) (j : Nat)
    (hfl : hasBits flags PyBUF_STRIDED = true)
    (hids : ∀ c s, st0.buffer_info = some c → c.snap = some s →
      s.id < st0.nextId)
    (h1 : array_getbuffer true a flags st0 = (Outcome.ok v1, st1))
    (h2 : array_getbuffer true a flags st1 = (Outcome.ok v2, st2))
    (hnd : a'.ndim = a.ndim) (hj : j < a.ndim)
    (hdiff : a'.dims.getD j 0 ≠ a.dims.getD j 0)
    (hwfd : a'.dims.length = a'.ndim)
    (hwfs : a'.strides.length = a'.ndim)
    (h3 : array_getbuffer true a' flags st2 = (Outcome.ok v3, st3)) :
    (v2.snapId = v1.snapId ∧ v2.shape = v1.shape ∧
     v2.strides = v1.strides ∧ st2.nextId = st1.nextId) ∧
    (v3.shape = some a'.dims ∧ v3.strides = some a'.strides ∧
     v3.snapId ≠ v1.snapId) := by
  obtain ⟨s1inv, -⟩ := getbuffer_ok_inv true a flags st0 v1 st1 h1
  obtain ⟨c1, hr1, hbi1, hnd1, hsnap1, hshape1, hstrides1⟩ := s1inv hfl
  obtain ⟨hcnd1, hle1, s1, hs1, hp1, hid1⟩ :=
    refreshCache_matches a _ _ _ _ _ c1 hr1
  have hids0 : ∀ s0, (st0.buffer_info.getD emptyCache).snap = some s0 →
      s0.id < st0.nextId := by
    intro s0 h0
    rcases hb : st0.buffer_info with - | c0
    · rw [hb] at h0
      simp [emptyCache] at h0
    · rw [hb] at h0
      exact hids c0 s0 hb (by simpa using h0)
  have hid1' : s1.id < st1.nextId := hid1 hids0
  obtain ⟨s2inv, -⟩ := getbuffer_ok_inv true a flags st1 v2 st2 h2
  obtain ⟨c2, hr2, hbi2, hnd2, hsnap2, hshape2, hstrides2⟩ := s2inv hfl
  rw [hbi1, Option.getD_some] at hr2
  have hch1 : shapeChanged a c1 = false :=
    shapeChanged_false_of_pointwise a c1 s1 hcnd1 hs1 hp1
  rw [refreshCache_reuse true a c1 st1.nextId st1.freed s1 hs1 hch1] at hr2
  rw [Prod.mk.injEq, Prod.mk.injEq, Prod.mk.injEq] at hr2
  obtain ⟨-, hc2, hn2, hf2⟩ := hr2
  subst hc2
  obtain ⟨s3inv, -⟩ := getbuffer_ok_inv true a' flags st2 v3 st3 h3
  obtain ⟨c3, hr3, hbi3, hnd3, hsnap3, hshape3, hstrides3⟩ := s3inv hfl
  rw [hbi2, Option.getD_some] at hr3
  have hch3 : shapeChanged a' c1 = true := by
    refine shapeChanged_true_of_diff a' c1 s1 j ?_ hs1 ?_ ?_
    · rw [hcnd1, hnd]
    · rw [hnd]
      exact hj
    · rw [(hp1 j hj).1]
      exact fun hcon => hdiff hcon.symm
  rw [refreshCache_grow a' c1 st2.nextId st2.freed (by simp [hch3])] at hr3
  rw [hs1] at hr3
  rw [Prod.mk.injEq, Prod.mk.injEq, Prod.mk.injEq] at hr3
  obtain ⟨-, hc3, hn3, hf3⟩ := hr3
  subst hc3
  constructor
  · refine ⟨?_, ?_, ?_, hn2.symm⟩
    · rw [hsnap2, hsnap1]
    · rw [hshape2, hshape1]
    · rw [hstrides2, hstrides1]
  · have ht1 : a'.dims.take a'.ndim = a'.dims := by
      rw [← hwfd]
      exact List.take_length a'.dims
    have ht2 : a'.strides.take a'.ndim = a'.strides := by
      rw [← hwfs]
      exact List.take_length a'.strides
    have hlt : s1.id < st2.nextId := by
      rw [← hn2]
      exact hid1'
    refine ⟨?_, ?_, ?_⟩
    · rw [hshape3]
      simp [ht1]
    · rw [hstrides3]
      simp [ht2]
    · rw [hsnap3, hsnap1, hs1]
      simp only [Option.map_some, ne_eq, Option.some.injEq]
      intro hcon
      have : st2.nextId = s1.id := by simpa using hcon
      omega

/-- C6 witness: the concrete three-export scenario on `exArr` (extent 2,
then unchanged, then grown to `exArr'` with extent 3). -/
theorem c6_witness :
    array_getbuffer true exArr stridedFlags freshState =
      (Outcome.ok exView1, exState1) ∧
    array_getbuffer true exArr stridedFlags exState1 =
      (Outcome.ok exView1, exState1) ∧
    array_getbuffer true exArr' stridedFlags exState1 =
      (Outcome.ok exView3, exState3) ∧
    ((exView1.snapId = exView1.snapId ∧ exView1.shape = exView1.shape ∧
      exView1.strides = exView1.strides ∧
      exState1.nextId = exState1.nextId) ∧
     (exView3.shape = some exArr'.dims ∧
      exView3.strides = some exArr'.strides ∧
      exView3.snapId ≠ exView1.snapId)) :=
  ⟨by decide, by decide, by decide,
   c6_snapshot_reuse_and_replacement exArr exArr' stridedFlags freshState
     exState1 exState1 exState3 exView1 exView1 exView3 0
     (by decide)
     (by intro c s hcs; simp [freshState] at hcs)
     (by decide) (by decide) (by decide) (by decide) (by decide)
     (by decide) (by decide) (by decide)⟩

/-- C10: when REQUIRE_SHAPE_STRIDES is absent and the buffer is not a
single contiguous segment, export fails even though no contiguity
capability was demanded (with `notSingleSegment` when no format string
was requested either); and a successful export reports shape/strides as
absent only for single-segment buffers. -/
theorem c10_non_strided_requires_one_segment (a : ArrayObj) (flags : Nat)
    (st : ExportState)
    (hs : hasBits flags PyBUF_STRIDED = false) (hseg : a.one_segment = false)
    (hc : hasBits flags PyBUF_C_CONTIGUOUS = false) (hf : hasBits flags PyBUF_F_CONTIGUOUS = false)
    (ha : hasBits flags PyBUF_ANY_CONTIGUOUS = false) :
    (∃ e, (array_getbuffer true a flags st).1 = Outcome.err e) ∧
    (hasBits flags PyBUF_FORMAT = false →
      (array_getbuffer true a flags st).1 =
        Outcome.err Err.notSingleSegment) ∧
    (∀ (a' : ArrayObj) (flags' : Nat) (st' : ExportState) (v : ViewRec)
        (st'' : ExportState),
      array_getbuffer true a' flags' st' = (Outcome.ok v, st'') →
      v.shape = none → a'.one_segment = true) := by
  refine ⟨?_, ?_, ?_⟩
  · unfold array_getbuffer
    simp only [hs, hseg, hc, hf, ha, Bool.false_and, Bool.false_eq_true,
      if_false]
    rcases hF : formatStep a.descr (hasBits flags PyBUF_FORMAT) (armCache st) with ⟨r, stf⟩
    cases r with
    | error e => exact ⟨e, rfl⟩
    | ok fmt => exact ⟨Err.notSingleSegment, rfl⟩
  · intro hfmt
    unfold array_getbuffer
    simp [hs, hseg, hc, hf, ha, hfmt, formatStep]
  · intro a' flags' st' v st'' h hnone
    obtain ⟨hstr, hnostr⟩ := getbuffer_ok_inv true a' flags' st' v st'' h
    by_cases hb : hasBits flags' PyBUF_STRIDED = true
    · obtain ⟨c', hr, -, -, -, hshape, -⟩ := hstr hb
      obtain ⟨-, -, s, hsnap, -, -⟩ :=
        refreshCache_matches a' _ _ _ _ _ c' hr
      rw [hshape, hsnap] at hnone
      exact Option.noConfusion hnone
    · rw [Bool.not_eq_true] at hb
      exact (hnostr hb).1

/-- C10 witness: the flag-free export of the non-single-segment `c10Arr`
fails with `notSingleSegment`. -/
theorem c10_witness :
    (hasBits simpleFlags PyBUF_STRIDED = false ∧ c10Arr.one_segment = false) ∧
    (array_getbuffer true c10Arr simpleFlags freshState).1 =
      Outcome.err Err.notSingleSegment :=
  ⟨⟨by decide, by decide⟩,
   (c10_non_strided_requires_one_segment c10Arr simpleFlags freshState
      (by decide) (by decide) (by decide) (by decide) (by decide)).2.1
     (by decide)⟩

end NpyBuffer
